import Mathlib

/-!
Verification of the portfolio valuation and return-computation engine:
a shallow embedding of the cash-flow builder, the XIRR entry points, the
windowed return calculator (xirr.py), the rate provider with its cache
(api_calls.py, portfolio_graph.py), and the cache loader.

Conventions: dates are day numbers (`Nat`), wall-clock timestamps are hours
(`Int`), and Decimal amounts are exact rationals (`Rat`); the external
root finder (pyxirr), the network fetches and the filesystem are parameters
of the functions that call them, and mutation of the module-level cache is
threaded as explicit state.
-/

namespace Portfolio

/-- model.py: a financial transaction record; every field is optional. -/
structure Transaction where
  buy_date : Option Nat := none
  buy_quantity : Option Rat := none
  buy_rate : Option Rat := none
  description : Option String := none
  sell_date : Option Nat := none
  sell_quantity : Option Rat := none
  sell_rate : Option Rat := none
  gain_from_sale : Option Rat := none
  gain_date : Option Nat := none
  gain_amount : Option Rat := none

/-- xirr.py `generate_cash_flows_from_transactions`, buy branch:
`if tx.buy_date and tx.buy_rate is not None:` emits `-(quantity * rate)`
when `buy_quantity is not None and buy_quantity > 0`, else `-rate`. -/
def buyFlows (tx : Transaction) : List (Nat × Rat) :=
  match tx.buy_date, tx.buy_rate with
  | some d, some r =>
      match tx.buy_quantity with
      | some q => if 0 < q then [(d, -(q * r))] else [(d, -r)]
      | none => [(d, -r)]
  | _, _ => []

/-- xirr.py `generate_cash_flows_from_transactions`, sell branch:
the positive flow `quantity * rate` when `sell_quantity is not None and
sell_quantity > 0`, else `rate`. -/
def sellFlows (tx : Transaction) : List (Nat × Rat) :=
  match tx.sell_date, tx.sell_rate with
  | some d, some r =>
      match tx.sell_quantity with
      | some q => if 0 < q then [(d, q * r)] else [(d, r)]
      | none => [(d, r)]
  | _, _ => []

/-- xirr.py `generate_cash_flows_from_transactions`, gain branch:
`if tx.gain_date and tx.gain_amount is not None:` emits the gain amount. -/
def gainFlows (tx : Transaction) : List (Nat × Rat) :=
  match tx.gain_date, tx.gain_amount with
  | some d, some g => [(d, g)]
  | _, _ => []

/-- xirr.py `generate_cash_flows_from_transactions`: the loop appends, per
transaction, the buy flow, then the sell flow, then the gain flow. -/
def generate_cash_flows_from_transactions : List Transaction → List (Nat × Rat)
  | [] => []
  | tx :: rest =>
      buyFlows tx ++ sellFlows tx ++ gainFlows tx
        ++ generate_cash_flows_from_transactions rest

/-- xirr.py `calculate_xirr_from_cash_flows`. The external root finder
(pyxirr) is the parameter `solver`; its `none` stands for the library
returning None/NaN/infinity or raising, which the code all maps to None.
The stable Python `list.sort` by date is modelled by a stable insertion sort
keyed on the date component; a defined solve is scaled by 100 (percent). -/
def calculate_xirr_from_cash_flows (solver : List (Nat × Rat) → Option Rat)
    (cash_flows : List (Nat × Rat)) : Option Rat :=
  if cash_flows.length < 2 then none
  else if ((cash_flows.insertionSort (fun a b => a.1 ≤ b.1)).map Prod.snd).any
        (fun v => decide (0 < v))
      && ((cash_flows.insertionSort (fun a b => a.1 ≤ b.1)).map Prod.snd).any
        (fun v => decide (v < 0)) then
    match solver (cash_flows.insertionSort (fun a b => a.1 ≤ b.1)) with
    | some r => some (r * 100)
    | none => none
  else none

/-- xirr.py `get_windowed_cash_flow_components`: the single classifying date
of a transaction, `tx.buy_date or tx.sell_date or tx.gain_date` (dates are
always truthy in Python, so `or` picks the first non-None date). -/
def txDate (tx : Transaction) : Option Nat :=
  match tx.buy_date with
  | some d => some d
  | none =>
      match tx.sell_date with
      | some d => some d
      | none => tx.gain_date

/-- Accumulator of the windowing loop: `(qty_at_start, val_at_start,
window_cash_flows)`. -/
abbrev WindowAcc := Rat × Rat × List (Nat × Rat)

/-- xirr.py `get_windowed_cash_flow_components`, section "1. Handle Buys":
fires when `tx.buy_rate is not None`; `amt` is `quantity * rate` when the
quantity is present and positive, else the bare rate; strictly before the
window it adds `amt` to the value accumulator and (Python truthiness:
`if tx.buy_quantity:`) a non-None nonzero quantity to the quantity
accumulator; inside the window it appends the negative flow at `tx_date`. -/
def handleBuy (start_date end_date tx_date : Nat) (tx : Transaction)
    (acc : WindowAcc) : WindowAcc :=
  match tx.buy_rate with
  | none => acc
  | some br =>
      let amt : Rat :=
        match tx.buy_quantity with
        | some bq => if 0 < bq then bq * br else br
        | none => br
      if tx_date < start_date then
        (match tx.buy_quantity with
         | some bq => if bq ≠ 0 then acc.1 + bq else acc.1
         | none => acc.1,
         acc.2.1 + amt, acc.2.2)
      else if tx_date ≤ end_date then
        (acc.1, acc.2.1, acc.2.2 ++ [(tx_date, -amt)])
      else acc

/-- xirr.py `get_windowed_cash_flow_components`, section "2. Handle
Sells/Payouts": symmetric to the buy section; before the window it
subtracts the sale amount from the value accumulator and the quantity from
the quantity accumulator, inside the window it appends the positive flow. -/
def handleSell (start_date end_date tx_date : Nat) (tx : Transaction)
    (acc : WindowAcc) : WindowAcc :=
  match tx.sell_rate with
  | none => acc
  | some sr =>
      let amt : Rat :=
        match tx.sell_quantity with
        | some sq => if 0 < sq then sq * sr else sr
        | none => sr
      if tx_date < start_date then
        (match tx.sell_quantity with
         | some sq => if sq ≠ 0 then acc.1 - sq else acc.1
         | none => acc.1,
         acc.2.1 - amt, acc.2.2)
      else if tx_date ≤ end_date then
        (acc.1, acc.2.1, acc.2.2 ++ [(tx_date, amt)])
      else acc

/-- xirr.py `get_windowed_cash_flow_components`, section "3. Handle Gains":
fires when `tx.gain_amount is not None`; before the window the amount is
added to the value accumulator, inside the window it becomes a flow. -/
def handleGain (start_date end_date tx_date : Nat) (tx : Transaction)
    (acc : WindowAcc) : WindowAcc :=
  match tx.gain_amount with
  | none => acc
  | some g =>
      if tx_date < start_date then
        (acc.1, acc.2.1 + g, acc.2.2)
      else if tx_date ≤ end_date then
        (acc.1, acc.2.1, acc.2.2 ++ [(tx_date, g)])
      else acc

/-- One iteration of the loop in `get_windowed_cash_flow_components`: a
transaction with no date at all is skipped; otherwise all three sections
run on the single classifying date `txDate`. -/
def windowStep (start_date end_date : Nat) (acc : WindowAcc)
    (tx : Transaction) : WindowAcc :=
  match txDate tx with
  | none => acc
  | some tx_date =>
      handleGain start_date end_date tx_date tx
        (handleSell start_date end_date tx_date tx
          (handleBuy start_date end_date tx_date tx acc))

/-- The whole loop of `get_windowed_cash_flow_components`, started from
`qty_at_start = 0`, `val_at_start = 0`, no window flows. -/
def window_fold (transactions : List Transaction) (start_date end_date : Nat) :
    WindowAcc :=
  transactions.foldl (windowStep start_date end_date) (0, 0, [])

/-- xirr.py `get_windowed_cash_flow_components`: after the loop, the
starting value is `qty_at_start * start_rate` when a start rate is given,
else the accumulated `val_at_start`. -/
def get_windowed_cash_flow_components (transactions : List Transaction)
    (start_date end_date : Nat) (start_rate : Option Rat) :
    Rat × List (Nat × Rat) :=
  match start_rate with
  | some r => ((window_fold transactions start_date end_date).1 * r,
               (window_fold transactions start_date end_date).2.2)
  | none => ((window_fold transactions start_date end_date).2.1,
             (window_fold transactions start_date end_date).2.2)

/-- The Python `abs` on an exact Decimal. -/
def ratAbs (x : Rat) : Rat := if x < 0 then -x else x

/-- The full cash-flow series assembled by
`calculate_historical_investment_xirr`: the negated starting value when
positive, the in-window flows, then the end market value when present and
positive. -/
def windowed_series (transactions : List Transaction) (start_date end_date : Nat)
    (start_rate end_market_value : Option Rat) : List (Nat × Rat) :=
  (if 0 < (get_windowed_cash_flow_components transactions start_date end_date start_rate).1
   then [(start_date, -(get_windowed_cash_flow_components transactions start_date end_date start_rate).1)]
   else [])
    ++ (get_windowed_cash_flow_components transactions start_date end_date start_rate).2
    ++ (match end_market_value with
        | some v => if 0 < v then [(end_date, v)] else []
        | none => [])

/-- xirr.py `calculate_historical_investment_xirr`: not-available when no
position and no flows exist in the window; exactly 0 when the series has at
least 2 flows whose net sum is within Decimal("0.01") of zero; otherwise the
solver runs on the series. -/
def calculate_historical_investment_xirr (solver : List (Nat × Rat) → Option Rat)
    (transactions : List Transaction) (start_date end_date : Nat)
    (start_rate end_market_value : Option Rat) : Option Rat :=
  if (get_windowed_cash_flow_components transactions start_date end_date start_rate).1 ≤ 0
      ∧ (get_windowed_cash_flow_components transactions start_date end_date start_rate).2 = [] then
    none
  else if 2 ≤ (windowed_series transactions start_date end_date start_rate end_market_value).length
      ∧ ratAbs ((windowed_series transactions start_date end_date start_rate end_market_value).map Prod.snd).sum
          < 1 / 100 then
    some 0
  else
    calculate_xirr_from_cash_flows solver
      (windowed_series transactions start_date end_date start_rate end_market_value)

/-! api_calls.py: the rate provider and its cache. The cache is the
module-level dict `{key: (timestamp, rate)}`; saving it to disk always
succeeds in the model, so a call returns its value together with the cache
it leaves behind. -/

/-- The rate cache `{ticker: (timestamp, rate)}` as an association list. -/
abbrev RateCache := List (String × Int × Rat)

/-- Python `ticker in rate_cache` / `rate_cache[ticker]`. -/
def cacheLookup : RateCache → String → Option (Int × Rat)
  | [], _ => none
  | (k, t, r) :: rest, key => if k = key then some (t, r) else cacheLookup rest key

/-- Python `rate_cache[ticker] = (timestamp, rate)`: replace or append. -/
def cacheUpdate : RateCache → String → Int → Rat → RateCache
  | [], key, t, r => [(key, t, r)]
  | (k, t0, r0) :: rest, key, t, r =>
      if k = key then (key, t, r) :: rest
      else (k, t0, r0) :: cacheUpdate rest key t r

/-- Outcome of the one live fetch `get_current_rate` attempts: a parsed
rate; a well-formed response missing the expected field (nav/meta/close),
which leaves `rate = None`; a raised exception (network error, timeout,
non-2xx, unparsable body), caught by the code; or an Alpha Vantage payload
carrying "Error Message"/"Note". -/
inductive FetchOutcome where
  | success (rate : Rat)
  | missingField
  | exn
  | errorPayload
deriving DecidableEq

/-- Python `ticker.startswith("IN")`, the routing test for Indian mutual
fund ISINs. -/
def startsWithIN (s : String) : Bool :=
  match s.data with
  | 'I' :: 'N' :: _ => true
  | _ => false

/-- The body of `get_current_rate` below its freshness check: source
dispatch on the ticker shape, the live fetch, cache write-back on success,
stale-cache fallback on failure. For an "IN" ticker every failure falls
through to the stale cache (the captnemo branch catches every exception and
has no error-payload check); for other tickers an Alpha Vantage error
payload, or a missing/empty API key, returns None at once, while caught
exceptions and missing response fields fall through to the stale cache. -/
def get_current_rate_fetch (fetch : FetchOutcome) (api_key : Option String)
    (ticker : String) (now : Int) (cache : RateCache) :
    Option Rat × RateCache :=
  if startsWithIN ticker then
    match fetch with
    | .success r => (some r, cacheUpdate cache ticker now r)
    | _ =>
        match cacheLookup cache ticker with
        | some (_, r) => (some r, cache)
        | none => (none, cache)
  else
    match api_key with
    | none => (none, cache)
    | some k =>
        if k = "" then (none, cache)
        else
          match fetch with
          | .errorPayload => (none, cache)
          | .success r => (some r, cacheUpdate cache ticker now r)
          | _ =>
              match cacheLookup cache ticker with
              | some (_, r) => (some r, cache)
              | none => (none, cache)

/-- api_calls.py `get_current_rate`. `fetch` is the outcome of the live
fetch the body would attempt, `api_key` the module-level Alpha Vantage key
(Python truthiness: a None or empty key skips the call), `now` the current
time in hours. A fresh cache entry (younger than 12 hours) is returned
without fetching unless `force_refresh` is set. -/
def get_current_rate (fetch : FetchOutcome) (api_key : Option String)
    (ticker : String) (force_refresh : Bool) (now : Int) (cache : RateCache) :
    Option Rat × RateCache :=
  if ticker = "" then (none, cache)
  else
    match cacheLookup cache ticker, force_refresh with
    | some (t, r), false =>
        if now - t < 12 then (some r, cache)
        else get_current_rate_fetch fetch api_key ticker now cache
    | _, _ => get_current_rate_fetch fetch api_key ticker now cache

/-- The synthetic cache key `f"USD_INR_RATE_{date_str}"`. -/
def hist_fx_key (date : Nat) : String := "USD_INR_RATE_" ++ toString date

/-- api_calls.py `get_historical_usd_to_inr_rate`: a cache hit is returned
unconditionally, ignoring its timestamp; otherwise the live source is
consulted (`fetch` is the parsed "rates.INR" field, `none` when the request
raised or the field is absent; Python truthiness drops a zero rate). A new
rate is cached and returned; a failure returns None and writes nothing. -/
def get_historical_usd_to_inr_rate (fetch : Option Rat) (now : Int)
    (date : Nat) (cache : RateCache) : Option Rat × RateCache :=
  match cacheLookup cache (hist_fx_key date) with
  | some (_, r) => (some r, cache)
  | none =>
      match fetch with
      | some v =>
          if v ≠ 0 then (some v, cacheUpdate cache (hist_fx_key date) now v)
          else (none, cache)
      | none => (none, cache)

/-- The synthetic cache key `f"HIST_{ticker}_{date.isoformat()}"`. -/
def hist_price_key (ticker : String) (date : Nat) : String :=
  "HIST_" ++ ticker ++ "_" ++ toString date

/-- portfolio_graph.py `get_historical_stock_price`: same permanent-cache
policy over the shared rate cache; `fetch` is the closing price extracted
from the Yahoo Finance history (`none` when the frame is empty or the call
raised). -/
def get_historical_stock_price (fetch : Option Rat) (now : Int)
    (ticker : String) (date : Nat) (cache : RateCache) :
    Option Rat × RateCache :=
  match cacheLookup cache (hist_price_key ticker date) with
  | some (_, r) => (some r, cache)
  | none =>
      match fetch with
      | some price =>
          (some price, cacheUpdate cache (hist_price_key ticker date) now price)
      | none => (none, cache)

/-! api_calls.py `load_rate_cache`: reading the persisted cache back. The
file and the JSON layer are modelled explicitly so that each Python
exception path is visible: FileNotFoundError, json.JSONDecodeError,
KeyError and TypeError are the caught ones. -/

/-- A parsed JSON value (integers suffice for the numeric entries the
claims need). -/
inductive Json where
  | null
  | bool (b : Bool)
  | num (n : Int)
  | str (s : String)
  | arr (elems : List Json)
  | obj (fields : List (String × Json))

/-- What `open` + `json.load` yield for the cache file. -/
inductive CacheFile where
  | missing
  | notJson
  | parsed (j : Json)

/-- The Python exceptions `load_rate_cache` can let escape. -/
inductive PyError where
  | valueError
  | invalidOperation
  | attributeError
deriving DecidableEq

/-- Python `value["timestamp"]` on a parsed JSON object. -/
def jlookup : List (String × Json) → String → Option Json
  | [], _ => none
  | (k, v) :: rest, key => if k = key then some v else jlookup rest key

/-- Processing the deserialized entries: `ok` when all reconstruct, `caught`
when an entry raises one of the caught exception types (KeyError from a
missing field, TypeError from indexing a non-dict or converting a value of
the wrong type), `raised` when an entry raises an uncaught one. -/
inductive EntryOutcome where
  | ok (entries : RateCache)
  | caught
  | raised (e : PyError)

/-- The reconstruction loop of `load_rate_cache`. `parseIso` models
`datetime.datetime.fromisoformat` on a string (none = raises ValueError,
which the code does not catch), `parseDec` models `Decimal` on a string
(none = raises decimal.InvalidOperation, also uncaught). -/
def load_entries (parseIso : String → Option Int) (parseDec : String → Option Rat) :
    List (String × Json) → EntryOutcome
  | [] => .ok []
  | (ticker, value) :: rest =>
      match value with
      | .obj fs =>
          match jlookup fs "timestamp" with
          | some (.str ts) =>
              match parseIso ts with
              | some t =>
                  match jlookup fs "rate" with
                  | some (.str rs) =>
                      match parseDec rs with
                      | some r =>
                          match load_entries parseIso parseDec rest with
                          | .ok entries => .ok ((ticker, t, r) :: entries)
                          | other => other
                      | none => .raised .invalidOperation
                  | some (.num n) =>
                      match load_entries parseIso parseDec rest with
                      | .ok entries => .ok ((ticker, t, (n : Rat)) :: entries)
                      | other => other
                  | some (.bool b) =>
                      match load_entries parseIso parseDec rest with
                      | .ok entries => .ok ((ticker, t, if b then 1 else 0) :: entries)
                      | other => other
                  | some _ => .caught
                  | none => .caught
              | none => .raised .valueError
          | some _ => .caught
          | none => .caught
      | _ => .caught

/-- api_calls.py `load_rate_cache`: a missing or unparsable file is an empty
cache; a parsed non-object has no `.items`, so the uncaught AttributeError
escapes; entries are reconstructed one by one and a caught per-entry
exception collapses the whole result to the empty cache. -/
def load_rate_cache (parseIso : String → Option Int)
    (parseDec : String → Option Rat) (file : CacheFile) :
    Except PyError RateCache :=
  match file with
  | .missing => .ok []
  | .notJson => .ok []
  | .parsed (.obj fields) =>
      match load_entries parseIso parseDec fields with
      | .ok entries => .ok entries
      | .caught => .ok []
      | .raised e => .error e
  | .parsed _ => .error .attributeError

/-! Concrete inputs used by the witnesses and counterexamples. -/

/-- One buy of 10 units at rate 5 on day 0. -/
def txBuyTen : Transaction := { buy_date := some 0, buy_quantity := some 10, buy_rate := some 5 }

/-- One sale of 5 of those units at rate 8 on day 50. -/
def txSellHalf : Transaction := { sell_date := some 50, sell_quantity := some 5, sell_rate := some 8 }

/-- A buy record whose quantity is present but zero (rate 5). -/
def txQtyZero : Transaction := { buy_date := some 0, buy_quantity := some 0, buy_rate := some 5 }

/-- A sale of 10 units at rate 6 on day 1. -/
def txSellTen : Transaction := { sell_date := some 1, sell_quantity := some 10, sell_rate := some 6 }

/-- A lump-sum buy of 0.005 currency units on day 0. -/
def txTiny : Transaction := { buy_date := some 0, buy_rate := some (1 / 200) }

/-- A lump-sum buy of 100 on day 0. -/
def txLump : Transaction := { buy_date := some 0, buy_rate := some 100 }

/-- A multi-facet record: buy of 2 @ 3 dated day 10 and sale of 1 @ 4 whose
own sell_date is day 300. -/
def txMulti : Transaction :=
  { buy_date := some 10, buy_quantity := some 2, buy_rate := some 3,
    sell_date := some 300, sell_quantity := some 1, sell_rate := some 4 }

/-! Helper lemmas about the windowing loop. -/

theorem handleBuy_no_rate (sd ed d : Nat) (tx : Transaction) (acc : WindowAcc)
    (h : tx.buy_rate = none) : handleBuy sd ed d tx acc = acc := by
  simp [handleBuy, h]

theorem handleSell_no_rate (sd ed d : Nat) (tx : Transaction) (acc : WindowAcc)
    (h : tx.sell_rate = none) : handleSell sd ed d tx acc = acc := by
  simp [handleSell, h]

theorem handleGain_no_amount (sd ed d : Nat) (tx : Transaction) (acc : WindowAcc)
    (h : tx.gain_amount = none) : handleGain sd ed d tx acc = acc := by
  simp [handleGain, h]

theorem handleBuy_pre (sd ed d : Nat) (tx : Transaction) (acc : WindowAcc)
    (h : d < sd) : (handleBuy sd ed d tx acc).2.2 = acc.2.2 := by
  cases hbr : tx.buy_rate with
  | none => simp [handleBuy, hbr]
  | some br => simp [handleBuy, hbr, h]

theorem handleSell_pre (sd ed d : Nat) (tx : Transaction) (acc : WindowAcc)
    (h : d < sd) : (handleSell sd ed d tx acc).2.2 = acc.2.2 := by
  cases hsr : tx.sell_rate with
  | none => simp [handleSell, hsr]
  | some sr => simp [handleSell, hsr, h]

theorem handleGain_pre (sd ed d : Nat) (tx : Transaction) (acc : WindowAcc)
    (h : d < sd) : (handleGain sd ed d tx acc).2.2 = acc.2.2 := by
  cases hg : tx.gain_amount with
  | none => simp [handleGain, hg]
  | some g => simp [handleGain, hg, h]

theorem windowStep_pre (sd ed : Nat) (tx : Transaction) (acc : WindowAcc)
    (h : ∀ d, txDate tx = some d → d < sd) :
    (windowStep sd ed acc tx).2.2 = acc.2.2 := by
  unfold windowStep
  cases hd : txDate tx with
  | none => rfl
  | some d =>
      have hlt := h d hd
      rw [handleGain_pre sd ed d tx _ hlt, handleSell_pre sd ed d tx _ hlt,
        handleBuy_pre sd ed d tx _ hlt]

theorem window_fold_pre (sd ed : Nat) (txs : List Transaction)
    (h : ∀ tx ∈ txs, ∀ d, txDate tx = some d → d < sd) (acc : WindowAcc) :
    (txs.foldl (windowStep sd ed) acc).2.2 = acc.2.2 := by
  induction txs generalizing acc with
  | nil => rfl
  | cons tx rest ih =>
      rw [List.foldl_cons, ih (fun t ht => h t (List.mem_cons_of_mem _ ht)),
        windowStep_pre sd ed tx acc (h tx (List.mem_cons_self _ _))]

/-- C5: `calculate_xirr_from_cash_flows` returns not-available whenever the
series has fewer than 2 flows, or has no strictly positive flow, or has no
strictly negative flow, whatever the external solver would have answered. -/
theorem xirr_preconditions (solver : List (Nat × Rat) → Option Rat)
    (cash_flows : List (Nat × Rat))
    (h : cash_flows.length < 2
      ∨ (∀ v ∈ cash_flows.map Prod.snd, v ≤ 0)
      ∨ (∀ v ∈ cash_flows.map Prod.snd, 0 ≤ v)) :
    calculate_xirr_from_cash_flows solver cash_flows = none := by
  unfold calculate_xirr_from_cash_flows
  by_cases hlen : cash_flows.length < 2
  · rw [if_pos hlen]
  · rw [if_neg hlen]
    rcases h with h | h | h
    · exact absurd h hlen
    · have hpos : ((cash_flows.insertionSort (fun a b => a.1 ≤ b.1)).map Prod.snd).any
          (fun v => decide (0 < v)) = false := by
        rw [List.any_eq_false]
        intro v hv
        rw [List.mem_map] at hv
        obtain ⟨a, ha, rfl⟩ := hv
        have ha' : a ∈ cash_flows := (List.mem_insertionSort _).1 ha
        have hle := h a.2 (List.mem_map_of_mem _ ha')
        simpa using not_lt.2 hle
      rw [hpos]
      simp
    · have hneg : ((cash_flows.insertionSort (fun a b => a.1 ≤ b.1)).map Prod.snd).any
          (fun v => decide (v < 0)) = false := by
        rw [List.any_eq_false]
        intro v hv
        rw [List.mem_map] at hv
        obtain ⟨a, ha, rfl⟩ := hv
        have ha' : a ∈ cash_flows := (List.mem_insertionSort _).1 ha
        have hle := h a.2 (List.mem_map_of_mem _ ha')
        simpa using not_lt.2 hle
      rw [hneg]
      simp

/-- Witness for C5: a single flow and an all-positive pair both give
not-available. -/
theorem xirr_preconditions_witness :
    calculate_xirr_from_cash_flows (fun _ => some 1) [((0 : Nat), (-100 : Rat))] = none
    ∧ calculate_xirr_from_cash_flows (fun _ => some 1)
        [((0 : Nat), (100 : Rat)), (1, 50)] = none := by
  constructor
  · exact xirr_preconditions _ _ (Or.inl (by norm_num))
  · refine xirr_preconditions _ _ (Or.inr (Or.inr ?_))
    intro v hv
    simp only [List.map_cons, List.map_nil, List.mem_cons, List.not_mem_nil, or_false] at hv
    rcases hv with h | h <;> rw [h] <;> norm_num

/-- C7: a window with a non-positive reconstructed starting value and no
in-window flows yields not-available, never 0%. -/
theorem no_position_no_flows_not_available (solver : List (Nat × Rat) → Option Rat)
    (transactions : List Transaction) (start_date end_date : Nat)
    (start_rate end_market_value : Option Rat)
    (h1 : (get_windowed_cash_flow_components transactions start_date end_date start_rate).1 ≤ 0)
    (h2 : (get_windowed_cash_flow_components transactions start_date end_date start_rate).2 = []) :
    calculate_historical_investment_xirr solver transactions start_date end_date
      start_rate end_market_value = none := by
  unfold calculate_historical_investment_xirr
  rw [if_pos ⟨h1, h2⟩]

/-- Witness for C7: no transactions at all, even with a positive end market
value, give not-available. -/
theorem no_position_no_flows_not_available_witness :
    calculate_historical_investment_xirr (fun _ => some 1) [] 0 10 none (some 5) = none := by
  exact no_position_no_flows_not_available _ [] 0 10 none (some 5) (le_refl 0) rfl

/-- C6 counterexample: a buy sub-group whose quantity is present but zero
emits the bare rate `-5`, not `-(0 * 5) = 0` as the literal reading "quantity
present" of the claim would demand. -/
theorem quantity_zero_emits_rate_counterexample :
    generate_cash_flows_from_transactions [txQtyZero] = [((0 : Nat), (-5 : Rat))]
    ∧ generate_cash_flows_from_transactions [txQtyZero]
        ≠ [((0 : Nat), -((0 : Rat) * 5))] := by
  have hval : generate_cash_flows_from_transactions [txQtyZero] = [((0 : Nat), (-5 : Rat))] := by
    norm_num [generate_cash_flows_from_transactions, buyFlows, sellFlows, gainFlows, txQtyZero]
  refine ⟨hval, ?_⟩
  rw [hval]
  norm_num

/-- C6 (amended): a populated buy sub-group emits one flow of
`-(quantity * rate)` when the quantity is present and strictly positive,
else `-(rate)`; the sell sub-group emits the symmetric positive flow under
the same positivity rule; a populated gain sub-group emits the gain amount
at the gain date. -/
theorem cash_flow_sign_convention (tx : Transaction) (d : Nat) (q r : Rat) :
    (generate_cash_flows_from_transactions [tx]
        = buyFlows tx ++ sellFlows tx ++ gainFlows tx)
    ∧ (tx.buy_date = some d → tx.buy_rate = some r → tx.buy_quantity = some q →
        0 < q → buyFlows tx = [(d, -(q * r))])
    ∧ (tx.buy_date = some d → tx.buy_rate = some r →
        (∀ q', tx.buy_quantity = some q' → ¬ 0 < q') → buyFlows tx = [(d, -r)])
    ∧ (tx.sell_date = some d → tx.sell_rate = some r → tx.sell_quantity = some q →
        0 < q → sellFlows tx = [(d, q * r)])
    ∧ (tx.sell_date = some d → tx.sell_rate = some r →
        (∀ q', tx.sell_quantity = some q' → ¬ 0 < q') → sellFlows tx = [(d, r)])
    ∧ (tx.gain_date = some d → tx.gain_amount = some r → gainFlows tx = [(d, r)]) := by
  refine ⟨?_, ?_, ?_, ?_, ?_, ?_⟩
  · simp [generate_cash_flows_from_transactions]
  · intro h1 h2 h3 h4
    simp [buyFlows, h1, h2, h3, h4]
  · intro h1 h2 h3
    cases hq : tx.buy_quantity with
    | none => simp [buyFlows, h1, h2, hq]
    | some q' => simp [buyFlows, h1, h2, hq, h3 q' hq]
  · intro h1 h2 h3 h4
    simp [sellFlows, h1, h2, h3, h4]
  · intro h1 h2 h3
    cases hq : tx.sell_quantity with
    | none => simp [sellFlows, h1, h2, hq]
    | some q' => simp [sellFlows, h1, h2, hq, h3 q' hq]
  · intro h1 h2
    simp [gainFlows, h1, h2]

/-- Witness for C6 (amended): buy of 10 @ 5 gives `(0, -50)`; sale of
10 @ 6 gives `(1, 60)`. -/
theorem cash_flow_sign_convention_witness :
    generate_cash_flows_from_transactions [txBuyTen] = [((0 : Nat), (-50 : Rat))]
    ∧ generate_cash_flows_from_transactions [txSellTen] = [((1 : Nat), (60 : Rat))] := by
  constructor
  · have h := cash_flow_sign_convention txBuyTen 0 10 5
    rw [h.1, h.2.1 rfl rfl rfl (by norm_num)]
    norm_num [sellFlows, gainFlows, txBuyTen]
  · have h := cash_flow_sign_convention txSellTen 1 10 6
    rw [h.1, h.2.2.2.1 rfl rfl rfl (by norm_num)]
    norm_num [buyFlows, gainFlows, txSellTen]

/-- C9 (exhibit of the bug): a syntactically valid JSON cache whose
timestamp string `fromisoformat` rejects makes `load_rate_cache` raise the
uncaught ValueError instead of returning the empty cache. -/
theorem load_rate_cache_uncaught_valueerror
    (parseIso : String → Option Int) (parseDec : String → Option Rat)
    (h : parseIso "garbage" = none) :
    load_rate_cache parseIso parseDec
        (.parsed (.obj [("X", .obj [("timestamp", .str "garbage"), ("rate", .str "1.0")])]))
      = .error .valueError := by
  simp [load_rate_cache, load_entries, jlookup, h]

/-- Witness for the C9 exhibit at a concrete failing parser. -/
theorem load_rate_cache_uncaught_valueerror_witness :
    load_rate_cache (fun _ => none) (fun _ => none)
        (.parsed (.obj [("X", .obj [("timestamp", .str "garbage"), ("rate", .str "1.0")])]))
      = .error .valueError :=
  load_rate_cache_uncaught_valueerror (fun _ => none) (fun _ => none) rfl

theorem handleSell_pre_qty (sd ed d : Nat) (tx : Transaction) (sr q : Rat)
    (acc : WindowAcc) (hsr : tx.sell_rate = some sr) (hsq : tx.sell_quantity = some q)
    (hq : 0 < q) (hlt : d < sd) :
    handleSell sd ed d tx acc = (acc.1 - q, acc.2.1 - q * sr, acc.2.2) := by
  simp [handleSell, hsr, hsq, hq, hlt, hq.ne']

theorem handleBuy_in_window (sd ed d : Nat) (tx : Transaction) (br qb : Rat)
    (acc : WindowAcc) (hbr : tx.buy_rate = some br) (hbq : tx.buy_quantity = some qb)
    (hqb : 0 < qb) (hge : ¬ d < sd) (hle : d ≤ ed) :
    handleBuy sd ed d tx acc = (acc.1, acc.2.1, acc.2.2 ++ [(d, -(qb * br))]) := by
  simp [handleBuy, hbr, hbq, hqb, hge, hle]

theorem handleSell_in_window (sd ed d : Nat) (tx : Transaction) (sr q : Rat)
    (acc : WindowAcc) (hsr : tx.sell_rate = some sr) (hsq : tx.sell_quantity = some q)
    (hq : 0 < q) (hge : ¬ d < sd) (hle : d ≤ ed) :
    handleSell sd ed d tx acc = (acc.1, acc.2.1, acc.2.2 ++ [(d, q * sr)]) := by
  simp [handleSell, hsr, hsq, hq, hge, hle]

/-- C4: over a transaction list entirely dated strictly before the window,
the components are the pre-window quantity times the supplied start rate
with no in-window flows; without a start rate the starting value is the
accumulated pre-window cost/value instead. -/
theorem windowed_all_pre_window (txs : List Transaction) (sd ed : Nat) (r : Rat)
    (h : ∀ tx ∈ txs, ∀ d, txDate tx = some d → d < sd) :
    get_windowed_cash_flow_components txs sd ed (some r)
        = ((window_fold txs sd ed).1 * r, [])
    ∧ get_windowed_cash_flow_components txs sd ed none
        = ((window_fold txs sd ed).2.1, []) := by
  have hfl : (window_fold txs sd ed).2.2 = [] := window_fold_pre sd ed txs h (0, 0, [])
  constructor
  · simp only [get_windowed_cash_flow_components]
    rw [hfl]
  · simp only [get_windowed_cash_flow_components]
    rw [hfl]

/-- Witness for C4: one buy of 10 units @ 5 on day 0, start day 151 with
start rate 7, end day 365: starting value 70 and no in-window flows. -/
theorem windowed_all_pre_window_witness :
    get_windowed_cash_flow_components [txBuyTen] 151 365 (some 7) = (70, []) := by
  have hpre : ∀ tx ∈ [txBuyTen], ∀ d, txDate tx = some d → d < 151 := by
    intro tx htx d hd
    rw [List.mem_singleton] at htx
    subst htx
    rw [show txDate txBuyTen = some 0 from rfl] at hd
    simp only [Option.some.injEq] at hd
    omega
  rw [(windowed_all_pre_window [txBuyTen] 151 365 7 hpre).1]
  norm_num [window_fold, windowStep, handleBuy, handleSell, handleGain, txDate, txBuyTen]

/-- C1 counterexample: a buy of 10 @ 5 and a pre-window sale of 5 @ 8 leave
a cost-basis fallback starting value of 50 − 40 = 10 (sale proceeds
reversed), not the 5 × 5 = 25 cost of the units still held. -/
theorem pre_window_sell_counterexample :
    (get_windowed_cash_flow_components [txBuyTen, txSellHalf] 100 200 none).1 = 10
    ∧ (get_windowed_cash_flow_components [txBuyTen, txSellHalf] 100 200 none).1 ≠ 25 := by
  have hval : (get_windowed_cash_flow_components [txBuyTen, txSellHalf] 100 200 none).1 = 10 := by
    norm_num [get_windowed_cash_flow_components, window_fold, windowStep, handleBuy,
      handleSell, handleGain, txDate, txBuyTen, txSellHalf]
  refine ⟨hval, ?_⟩
  rw [hval]
  norm_num

/-- C1 (amended): a pre-window sell subtracts its quantity from the
quantity accumulator and the sale amount `quantity * sell_rate` (the
proceeds valued at the sell rate, not the proportional cost of the sold
units) from the value accumulator; the cost-basis fallback starting value
is that accumulated net value. -/
theorem pre_window_sell_reverses_proceeds (sd ed d : Nat) (tx : Transaction)
    (sr q : Rat) (acc : WindowAcc)
    (hd : txDate tx = some d) (hlt : d < sd)
    (hbr : tx.buy_rate = none) (hga : tx.gain_amount = none)
    (hsr : tx.sell_rate = some sr) (hsq : tx.sell_quantity = some q) (hq : 0 < q) :
    windowStep sd ed acc tx = (acc.1 - q, acc.2.1 - q * sr, acc.2.2)
    ∧ ∀ txs : List Transaction,
        (get_windowed_cash_flow_components txs sd ed none).1
          = (window_fold txs sd ed).2.1 := by
  constructor
  · unfold windowStep
    simp only [hd]
    rw [handleBuy_no_rate sd ed d tx acc hbr,
      handleSell_pre_qty sd ed d tx sr q acc hsr hsq hq hlt,
      handleGain_no_amount sd ed d tx _ hga]
  · intro txs
    rfl

/-- Witness for C1 (amended): the sale of 5 @ 8 fifty days before a window
starting at day 100, folded into the accumulator (10, 50, []), leaves
(5, 10, []). -/
theorem pre_window_sell_reverses_proceeds_witness :
    windowStep 100 200 (10, 50, []) txSellHalf = (5, 10, []) := by
  rw [(pre_window_sell_reverses_proceeds 100 200 50 txSellHalf 8 5 (10, 50, [])
    rfl (by norm_num) rfl rfl rfl rfl (by norm_num)).1]
  norm_num

/-- C10: the windowing loop classifies a whole record by the single date
`buy_date or sell_date or gain_date`: with a buy date present the
own sell/gain dates of the record are ignored entirely, an in-window buy+sell record
emits both flows at the buy date, and a record with no date at all is
skipped. -/
theorem single_date_classification (sd ed db : Nat) (tx : Transaction)
    (acc : WindowAcc) (qb br q sr : Rat) :
    (tx.buy_date = some db → txDate tx = some db)
    ∧ (tx.buy_date = some db → ∀ sdt gdt : Option Nat,
        windowStep sd ed acc { tx with sell_date := sdt, gain_date := gdt }
          = windowStep sd ed acc tx)
    ∧ (txDate tx = none → windowStep sd ed acc tx = acc)
    ∧ (tx.buy_date = some db → tx.buy_rate = some br → tx.buy_quantity = some qb →
        0 < qb → tx.sell_rate = some sr → tx.sell_quantity = some q → 0 < q →
        tx.gain_amount = none → ¬ db < sd → db ≤ ed →
        windowStep sd ed acc tx
          = (acc.1, acc.2.1, acc.2.2 ++ [(db, -(qb * br)), (db, q * sr)])) := by
  refine ⟨?_, ?_, ?_, ?_⟩
  · intro hb
    simp [txDate, hb]
  · intro hb sdt gdt
    simp [windowStep, txDate, hb, handleBuy, handleSell, handleGain]
  · intro hn
    simp [windowStep, hn]
  · intro hb hbr hbq hqb hsr hsq hq hga hge hle
    have hdd : txDate tx = some db := by simp [txDate, hb]
    unfold windowStep
    simp only [hdd]
    rw [handleBuy_in_window sd ed db tx br qb acc hbr hbq hqb hge hle,
      handleSell_in_window sd ed db tx sr q _ hsr hsq hq hge hle,
      handleGain_no_amount sd ed db tx _ hga]
    simp

/-- Witness for C10: a record buying 2 @ 3 on day 10 whose sale of 1 @ 4
carries its own sell_date 300, far beyond the window [5, 20], still emits
both flows at day 10. -/
theorem single_date_classification_witness :
    windowStep 5 20 (0, 0, []) txMulti = (0, 0, [(10, -6), (10, 4)]) := by
  rw [(single_date_classification 5 20 10 txMulti (0, 0, []) 2 3 1 4).2.2.2
    rfl rfl rfl (by norm_num) rfl rfl (by norm_num) rfl (by norm_num) (by norm_num)]
  norm_num

/-- C3 (amended): when the assembled windowed series has at least two flows
and its net sum is within 0.01 of zero, the result is exactly 0% without
consulting the solver; the original form of the claim fails on within-epsilon
series of fewer than two flows, which fall through to the solver
preconditions and yield not-available. -/
theorem degenerate_zero_window (solver : List (Nat × Rat) → Option Rat)
    (txs : List Transaction) (sd ed : Nat) (sr emv : Option Rat)
    (hlen : 2 ≤ (windowed_series txs sd ed sr emv).length)
    (heps : ratAbs ((windowed_series txs sd ed sr emv).map Prod.snd).sum < 1 / 100) :
    calculate_historical_investment_xirr solver txs sd ed sr emv = some 0 := by
  have hno : ¬ ((get_windowed_cash_flow_components txs sd ed sr).1 ≤ 0
      ∧ (get_windowed_cash_flow_components txs sd ed sr).2 = []) := by
    rintro ⟨h1, h2⟩
    have hle : (windowed_series txs sd ed sr emv).length ≤ 1 := by
      unfold windowed_series
      rw [if_neg (not_lt.2 h1), h2]
      cases emv with
      | none => simp
      | some v => by_cases hv : 0 < v <;> simp [hv]
    omega
  unfold calculate_historical_investment_xirr
  rw [if_neg hno, if_pos ⟨hlen, heps⟩]

/-- Witness for C3 (amended): a pre-window lump buy of 100, no start rate,
end market value 100: series [(10, −100), (20, 100)] sums to zero and the
result is exactly 0%. -/
theorem degenerate_zero_window_witness :
    calculate_historical_investment_xirr (fun _ => none) [txLump] 10 20 none (some 100)
      = some 0 := by
  refine degenerate_zero_window (fun _ => none) [txLump] 10 20 none (some 100) ?_ ?_
  · norm_num [windowed_series, get_windowed_cash_flow_components, window_fold,
      windowStep, handleBuy, handleSell, handleGain, txDate, txLump]
  · norm_num [windowed_series, ratAbs, get_windowed_cash_flow_components, window_fold,
      windowStep, handleBuy, handleSell, handleGain, txDate, txLump]

/-- C3 counterexample: a lump buy of 0.005 before the window, nothing else:
the series is the single flow (100, −1/200), its sum is within 0.01 of
zero, yet the result is not-available rather than 0%. -/
theorem degenerate_zero_window_counterexample :
    ratAbs ((windowed_series [txTiny] 100 200 none none).map Prod.snd).sum < 1 / 100
    ∧ calculate_historical_investment_xirr (fun _ => some 1) [txTiny] 100 200 none none
        = none := by
  constructor
  · norm_num [windowed_series, ratAbs, get_windowed_cash_flow_components, window_fold,
      windowStep, handleBuy, handleSell, handleGain, txDate, txTiny]
  · norm_num [calculate_historical_investment_xirr, windowed_series, ratAbs,
      calculate_xirr_from_cash_flows, get_windowed_cash_flow_components, window_fold,
      windowStep, handleBuy, handleSell, handleGain, txDate, txTiny]

theorem cacheLookup_cacheUpdate_self (cache : RateCache) (k : String)
    (t : Int) (r : Rat) :
    cacheLookup (cacheUpdate cache k t r) k = some (t, r) := by
  induction cache with
  | nil => simp [cacheUpdate, cacheLookup]
  | cons e rest ih =>
      obtain ⟨k0, t0, r0⟩ := e
      by_cases hk : k0 = k
      · simp [cacheUpdate, cacheLookup, hk]
      · simp [cacheUpdate, cacheLookup, hk, ih]

theorem get_current_rate_stale (fetch : FetchOutcome) (api_key : Option String)
    (ticker : String) (now t : Int) (r : Rat) (cache : RateCache)
    (hne : ¬ ticker = "") (hmem : cacheLookup cache ticker = some (t, r))
    (hstale : ¬ now - t < 12) :
    get_current_rate fetch api_key ticker false now cache
      = get_current_rate_fetch fetch api_key ticker now cache := by
  unfold get_current_rate
  simp only [hmem, if_neg hne, if_neg hstale]

/-- C2 (amended): when the live fetch fails with a caught exception or a
response missing the expected field, a stale cache entry is returned;
but a non-IN ticker whose Alpha Vantage response carries an error payload
("Error Message"/"Note") returns not-available immediately even though a
stale cache entry exists, as does an unconfigured API key. -/
theorem stale_cache_fallback (fetch : FetchOutcome) (api_key : Option String)
    (ticker : String) (now t : Int) (r : Rat) (cache : RateCache)
    (hne : ¬ ticker = "")
    (hmem : cacheLookup cache ticker = some (t, r))
    (hstale : ¬ now - t < 12) :
    ((fetch = .exn ∨ fetch = .missingField) →
      (startsWithIN ticker = true ∨ ∃ k, api_key = some k ∧ k ≠ "") →
      (get_current_rate fetch api_key ticker false now cache).1 = some r)
    ∧ (startsWithIN ticker = false → ∀ k, k ≠ "" →
      (get_current_rate .errorPayload (some k) ticker false now cache).1 = none) := by
  constructor
  · intro hf hsrc
    rw [get_current_rate_stale fetch api_key ticker now t r cache hne hmem hstale]
    unfold get_current_rate_fetch
    rcases hsrc with hin | ⟨k, hk, hke⟩
    · rw [if_pos hin]
      rcases hf with rfl | rfl <;> simp [hmem]
    · subst hk
      by_cases hin : startsWithIN ticker = true
      · rw [if_pos hin]
        rcases hf with rfl | rfl <;> simp [hmem]
      · rw [if_neg hin]
        rcases hf with rfl | rfl <;> simp [hke, hmem]
  · intro hin k hke
    rw [get_current_rate_stale .errorPayload (some k) ticker now t r cache hne hmem hstale]
    unfold get_current_rate_fetch
    rw [if_neg (by rw [hin]; exact Bool.false_ne_true)]
    simp [hke]

/-- C2 counterexample: ticker "AAPL", key configured, stale cache entry
(0, 50) present, upstream error payload: the function returns None, not the
cached 50. -/
theorem stale_cache_error_payload_counterexample :
    cacheLookup [("AAPL", ((0 : Int), (50 : Rat)))] "AAPL" = some (0, 50)
    ∧ (get_current_rate .errorPayload (some "k") "AAPL" false 100
        [("AAPL", ((0 : Int), (50 : Rat)))]).1 = none := by
  exact ⟨rfl, rfl⟩

/-- Witness for C2 (amended): a caught exception with the same stale entry
does fall back to the cached 50; the error payload returns None. -/
theorem stale_cache_fallback_witness :
    (get_current_rate .exn (some "k") "AAPL" false 100
        [("AAPL", ((0 : Int), (50 : Rat)))]).1 = some 50
    ∧ (get_current_rate .errorPayload (some "k") "AAPL" false 100
        [("AAPL", ((0 : Int), (50 : Rat)))]).1 = none := by
  have h := stale_cache_fallback .exn (some "k") "AAPL" 100 0 50
    [("AAPL", ((0 : Int), (50 : Rat)))] (by decide) rfl (by decide)
  exact ⟨h.1 (Or.inl rfl) (Or.inr ⟨"k", rfl, by decide⟩), h.2 (by decide) "k" (by decide)⟩

/-- C8: historical rates are permanent: a cache hit is returned
unconditionally with the cache untouched, regardless of the fetch outcome
or any timestamp; a failed fetch with no entry returns not-available and
writes no sentinel; a successful first fetch populates the cache so a
second call with the source unreachable returns the identical rate. Both
`get_historical_usd_to_inr_rate` and `get_historical_stock_price` obey the
policy. -/
theorem historical_cache_immutable (fetch : Option Rat) (now now2 : Int)
    (d : Nat) (tk : String) (cache : RateCache) (t : Int) (r : Rat) :
    (cacheLookup cache (hist_fx_key d) = some (t, r) →
      get_historical_usd_to_inr_rate fetch now d cache = (some r, cache))
    ∧ (cacheLookup cache (hist_fx_key d) = none →
      get_historical_usd_to_inr_rate none now d cache = (none, cache))
    ∧ (cacheLookup cache (hist_fx_key d) = none → r ≠ 0 →
      get_historical_usd_to_inr_rate (some r) now d cache
          = (some r, cacheUpdate cache (hist_fx_key d) now r)
        ∧ (get_historical_usd_to_inr_rate none now2 d
            (cacheUpdate cache (hist_fx_key d) now r)).1 = some r)
    ∧ (cacheLookup cache (hist_price_key tk d) = some (t, r) →
      get_historical_stock_price fetch now tk d cache = (some r, cache))
    ∧ (cacheLookup cache (hist_price_key tk d) = none →
      get_historical_stock_price none now tk d cache = (none, cache))
    ∧ (cacheLookup cache (hist_price_key tk d) = none →
      get_historical_stock_price (some r) now tk d cache
          = (some r, cacheUpdate cache (hist_price_key tk d) now r)
        ∧ (get_historical_stock_price none now2 tk d
            (cacheUpdate cache (hist_price_key tk d) now r)).1 = some r) := by
  refine ⟨?_, ?_, ?_, ?_, ?_, ?_⟩
  · intro hmem
    simp [get_historical_usd_to_inr_rate, hmem]
  · intro hnone
    simp [get_historical_usd_to_inr_rate, hnone]
  · intro hnone hr
    constructor
    · simp [get_historical_usd_to_inr_rate, hnone, hr]
    · simp [get_historical_usd_to_inr_rate, cacheLookup_cacheUpdate_self]
  · intro hmem
    simp [get_historical_stock_price, hmem]
  · intro hnone
    simp [get_historical_stock_price, hnone]
  · intro hnone
    constructor
    · simp [get_historical_stock_price, hnone]
    · simp [get_historical_stock_price, cacheLookup_cacheUpdate_self]

/-- Witness for C8: a first call fetching 83 for day 7 populates the cache;
a second call with the source unreachable returns the identical 83. -/
theorem historical_cache_immutable_witness :
    get_historical_usd_to_inr_rate (some 83) 5 7 []
        = (some 83, cacheUpdate [] (hist_fx_key 7) 5 83)
    ∧ (get_historical_usd_to_inr_rate none 9 7
        (cacheUpdate [] (hist_fx_key 7) 5 83)).1 = some 83 := by
  exact (historical_cache_immutable (some 83) 5 9 7 "G" [] 0 83).2.2.1 rfl (by norm_num)

end Portfolio
